import Mathlib

/-!
Shallow embedding of the `learn-file-storage-s3-golang-starter` handlers.

Go strings are modelled as Lean `String`, Go byte values as `Nat` (with
explicit `% 16` / `% 64` wraps where a byte is decomposed), Go `(T, error)`
returns as `Except String T`.  External collaborators (uuid parsing, JWT
validation, the metadata store, the S3 client, the file system, ffprobe) are
oracles passed in an environment record; each handler is a pure function from
its environment to a result record that carries the HTTP status, the JSON
payload, and the traces of its side effects (temp-file events, S3 puts,
asset-file events, metadata-store writes).
-/

deriving instance DecidableEq for Except

namespace Tubely

/-- Video record, after `internal/database.Video`: id, owner, nullable
thumbnail and video location fields, plus descriptive fields. -/
structure Video where
  id : Nat
  userID : Nat
  title : String
  description : String
  thumbnailURL : Option String
  videoURL : Option String
deriving DecidableEq, Repr

/-- Splitting a character list around every instance of a separator
character, after Go `strings.Split` with a one-character separator:
`strings.Split("", ",") = [""]`, `strings.Split("a,b", ",") = ["a", "b"]`. -/
def splitOnChar (sep : Char) : List Char → List (List Char)
  | [] => [[]]
  | c :: cs =>
    if c = sep then [] :: splitOnChar sep cs
    else
      match splitOnChar sep cs with
      | [] => [[c]]
      | r :: rs => (c :: r) :: rs

/-- `strings.Split(s, ",")` as used by `dbVideoToSignedVideo`. -/
def strSplitComma (s : String) : List String :=
  (splitOnChar ',' s.data).map fun cs => String.mk cs

/-- The hexadecimal digit table of Go `encoding/hex` (`hextable`). -/
def hexDigits : List Char := "0123456789abcdef".data

/-- Go `encoding/hex` encoding of one byte `b`: `hextable[b>>4]` then
`hextable[b&0x0f]` (the `% 16` makes the byte range explicit on `Nat`). -/
def hexEncodeByte (b : Nat) : List Char :=
  [hexDigits.getD (b / 16 % 16) '0', hexDigits.getD (b % 16) '0']

/-- Go `hex.EncodeToString` on a byte slice. -/
def hexEncode (bs : List Nat) : String :=
  String.mk ((bs.map hexEncodeByte).flatten)

/-- The alphabet of Go `base64.StdEncoding` (`encodeStd`). -/
def base64StdAlphabet : List Char :=
  "ABCDEFGHIJKLMNOPQRSTUVWXYZabcdefghijklmnopqrstuvwxyz0123456789+/".data

/-- The alphabet of Go `base64.RawURLEncoding` (`encodeURL`). -/
def base64UrlAlphabet : List Char :=
  "ABCDEFGHIJKLMNOPQRSTUVWXYZabcdefghijklmnopqrstuvwxyz0123456789-_".data

/-- One 6-bit group rendered through a base64 alphabet. -/
def b64Char (alphabet : List Char) (n : Nat) : Char :=
  alphabet.getD (n % 64) 'A'

/-- RFC 4648 base64 digit stream (no padding): three input bytes become four
sextets; a one- or two-byte tail becomes two or three sextets. -/
def base64Groups (alphabet : List Char) : List Nat → List Char
  | [] => []
  | [b0] =>
    [b64Char alphabet (b0 / 4), b64Char alphabet (b0 % 4 * 16)]
  | [b0, b1] =>
    [b64Char alphabet (b0 / 4), b64Char alphabet (b0 % 4 * 16 + b1 / 16),
     b64Char alphabet (b1 % 16 * 4)]
  | b0 :: b1 :: b2 :: rest =>
    b64Char alphabet (b0 / 4) :: b64Char alphabet (b0 % 4 * 16 + b1 / 16) ::
    b64Char alphabet (b1 % 16 * 4 + b2 / 64) :: b64Char alphabet (b2 % 64) ::
    base64Groups alphabet rest

/-- Go `base64.StdEncoding.EncodeToString`: standard alphabet with `=`
padding to a multiple of four digits. -/
def base64StdEncode (bs : List Nat) : String :=
  String.mk (base64Groups base64StdAlphabet bs) ++
    (match bs.length % 3 with
     | 1 => "=="
     | 2 => "="
     | _ => "")

/-- Go `base64.RawURLEncoding.EncodeToString`: URL-safe alphabet, no
padding. -/
def base64RawURLEncode (bs : List Nat) : String :=
  String.mk (base64Groups base64UrlAlphabet bs)

/-- `generatePresignedURL` (presigned_url.go) delegates to the AWS SDK's
presign client, an external collaborator; handlers below take it as an
oracle `presign bucket key` (the `time.Hour` expiry is fixed at the call
site and absorbed into the oracle). -/
def PresignOracle := String → String → Except String String

/-- `dbVideoToSignedVideo` (video_signed_url.go): nil location or a location
that does not split into exactly two comma-separated parts is returned
unchanged with no error; otherwise the parts are `bucket` and `key` and the
location is replaced by the presigned URL. -/
def dbVideoToSignedVideo (presign : PresignOracle) (video : Video) :
    Except String Video :=
  match video.videoURL with
  | none => Except.ok video
  | some url =>
    let parts := strSplitComma url
    if parts.length ≠ 2 then Except.ok video
    else
      let bucket := parts.getD 0 ""
      let key := parts.getD 1 ""
      match presign bucket key with
      | Except.error e => Except.error e
      | Except.ok signedURL => Except.ok { video with videoURL := some signedURL }

/-- One stream entry of the ffprobe JSON output (video_aspect_ratio.go). -/
structure FFStream where
  width : Int
  height : Int
deriving DecidableEq, Repr

/-- The decoded ffprobe JSON shape `{"streams": [...]}`. -/
structure FFProbeOutput where
  streams : List FFStream
deriving DecidableEq, Repr

/-- Lines 55-64 of video_aspect_ratio.go: `ratio := width / height`, then
`16:9` when `|ratio - 16/9| < 0.1`, `9:16` when `|ratio - 9/16| < 0.1`, else
`other`.  Go computes on `float64`; the model uses exact rationals, which
agrees with `float64` except within rounding error of the `0.1` boundary. -/
def ratioLabel (width height : ℚ) : String :=
  let ratio := width / height
  if |ratio - 16 / 9| < 1 / 10 then "16:9"
  else if |ratio - 9 / 16| < 1 / 10 then "9:16"
  else "other"

/-- `getVideoAspectRatio` (video_aspect_ratio.go).  Running ffprobe and
unmarshaling its captured stdout are oracles: `runResult` is the outcome of
`cmd.Run()`, `decoded` the outcome of `json.Unmarshal` on the buffer. -/
def getVideoAspectRatio (runResult : Except String Unit)
    (decoded : Except String FFProbeOutput) : Except String String :=
  match runResult with
  | Except.error e => Except.error ("error running ffprobe: " ++ e)
  | Except.ok _ =>
    match decoded with
    | Except.error e => Except.error ("error unmarshaling ffprobe output: " ++ e)
    | Except.ok data =>
      if data.streams.length = 0 then
        Except.error "no streams found in video file"
      else
        match data.streams with
        | [] => Except.error "no streams found in video file"
        | s :: _ => Except.ok (ratioLabel (s.width : ℚ) (s.height : ℚ))

/-- The fields of `apiConfig` the handlers under study read. -/
structure Config where
  s3Bucket : String
  s3Region : String
  assetsRoot : String
  port : String
deriving DecidableEq, Repr

/-- The one multipart-form-file datum the handlers read besides the byte
stream: the part's declared `Content-Type` header. -/
structure FormFilePart where
  contentTypeHeader : String
deriving DecidableEq, Repr

/-- Temp-file lifecycle events of the video upload handler's staging file
(`os.CreateTemp` / `tempFile.Close` / `os.Remove(tempFile.Name())`). -/
inductive TempEvent where
  | create
  | close
  | remove
deriving DecidableEq, Repr

/-- The outcome of one run of `handlerUploadVideo`: HTTP status, JSON
payload (`respondWithJSON`) or error message (`respondWithError`), the
staging-file event trace, the `PutObject` calls issued (bucket, key, content
type), and the `UpdateVideo` calls issued. -/
structure VideoResult where
  status : Nat
  payload : Option Video
  errorMsg : Option String
  tempEvents : List TempEvent
  s3Puts : List (String × String × String)
  dbWrites : List Video
deriving DecidableEq, Repr

/-- `respondWithError(w, code, msg, err)` for the video handler: a JSON
error envelope carrying only the fixed message, no record data, and no side
effects of its own. -/
def respondVideoError (code : Nat) (msg : String) : VideoResult :=
  { status := code, payload := none, errorMsg := some msg,
    tempEvents := [], s3Puts := [], dbWrites := [] }

/-- Oracles for every external call `handlerUploadVideo` makes, in program
order: `uuid.Parse` on the path value, `auth.GetBearerToken`,
`auth.ValidateJWT`, `cfg.db.GetVideo`, the request body size (read through
`http.MaxBytesReader`), `r.FormFile("video")`, `mime.ParseMediaType`,
`os.CreateTemp`, `io.Copy` to the temp file, `tempFile.Seek`, `rand.Read`
(the 32 random bytes), `s3Client.PutObject`, `cfg.db.UpdateVideo`. -/
structure VideoUploadEnv where
  parsedVideoID : Except String Nat
  bearerToken : Except String String
  validateJWT : String → Except String Nat
  getVideo : Nat → Except String Video
  bodySize : Nat
  formFile : Except String FormFilePart
  parseMediaType : String → Except String String
  createTemp : Except String Unit
  copyToTemp : Except String Nat
  seekStart : Except String Unit
  randBytes : Except String (List Nat)
  putObject : String → String → String → Except String Unit
  updateVideo : Video → Except String Unit

/-- The 1 GiB body cap `http.MaxBytesReader(w, r.Body, 1<<30)` of
handlerUploadVideo. -/
def maxUploadSize : Nat := 1 <<< 30

/-- The S3 URL the video handler persists (part_000 line 151):
`https://<bucket>.s3.<region>.amazonaws.com/<key>`. -/
def videoURLFor (bucket region filename : String) : String :=
  "https://" ++ bucket ++ ".s3." ++ region ++ ".amazonaws.com/" ++ filename

/-- Records a `PutObject` call in the result's trace. -/
def addPut (p : String × String × String) (r : VideoResult) : VideoResult :=
  { r with s3Puts := p :: r.s3Puts }

/-- Records an `UpdateVideo` call in the result's trace. -/
def addWrite (v : Video) (r : VideoResult) : VideoResult :=
  { r with dbWrites := v :: r.dbWrites }

/-- Lines 115-161 of part_000, the region guarded by the two deferred
temp-file calls: copy-in, rewind, random key, `PutObject`, persist the S3
URL, respond.  Kept as its own definition so the deferred cleanup can wrap
it uniformly. -/
def uploadVideoAfterTemp (cfg : Config) (env : VideoUploadEnv)
    (mediaType : String) (video : Video) : VideoResult :=
  match env.copyToTemp with
  | Except.error _ => respondVideoError 500 "Couldn't save file"
  | Except.ok _ =>
  match env.seekStart with
  | Except.error _ => respondVideoError 500 "Couldn't reset file pointer"
  | Except.ok _ =>
  match env.randBytes with
  | Except.error _ => respondVideoError 500 "Couldn't generate random filename"
  | Except.ok randomBytes =>
  let filename := hexEncode randomBytes ++ ".mp4"
  addPut (cfg.s3Bucket, filename, mediaType)
    (match env.putObject cfg.s3Bucket filename mediaType with
     | Except.error _ => respondVideoError 500 "Couldn't upload file to S3"
     | Except.ok _ =>
       let videoURL := videoURLFor cfg.s3Bucket cfg.s3Region filename
       let video' := { video with videoURL := some videoURL }
       addWrite video'
         (match env.updateVideo video' with
          | Except.error _ => respondVideoError 500 "Couldn't update video metadata"
          | Except.ok _ =>
            { status := 200, payload := some video', errorMsg := none,
              tempEvents := [], s3Puts := [], dbWrites := [] }))

/-- Go `defer` semantics for lines 112-113 of part_000: the deferred calls
run LIFO on every exit of the guarded region, so the temp file is closed
first and removed second. -/
def withTempCleanup (r : VideoResult) : VideoResult :=
  { r with tempEvents :=
      TempEvent.create :: r.tempEvents ++ [TempEvent.close, TempEvent.remove] }

/-- `handlerUploadVideo` (part_000).  The `MaxBytesReader` cap installed at
line 51 surfaces when `FormFile` reads the body: a body over the cap makes
that read fail, so the `FormFile` step errors whenever `bodySize` exceeds
`maxUploadSize`.  The deferred `file.Close()` of the multipart part has no
observable effect in this model and is not traced. -/
def handlerUploadVideo (cfg : Config) (env : VideoUploadEnv) : VideoResult :=
  match env.parsedVideoID with
  | Except.error _ => respondVideoError 400 "Invalid video ID"
  | Except.ok videoID =>
  match env.bearerToken with
  | Except.error _ => respondVideoError 401 "Couldn't find JWT"
  | Except.ok token =>
  match env.validateJWT token with
  | Except.error _ => respondVideoError 401 "Couldn't validate JWT"
  | Except.ok userID =>
  match env.getVideo videoID with
  | Except.error _ => respondVideoError 404 "Couldn't get video"
  | Except.ok video =>
  if video.userID ≠ userID then
    respondVideoError 401 "You don't own this video"
  else
  match (if maxUploadSize < env.bodySize then
          Except.error "http: request body too large"
         else env.formFile) with
  | Except.error _ => respondVideoError 400 "Error getting video from form"
  | Except.ok part =>
  match env.parseMediaType part.contentTypeHeader with
  | Except.error _ => respondVideoError 400 "Invalid Content-Type header"
  | Except.ok mediaType =>
  if mediaType ≠ "video/mp4" then
    respondVideoError 400 "File type not allowed. Only MP4 videos are supported."
  else
  match env.createTemp with
  | Except.error _ => respondVideoError 500 "Couldn't create temporary file"
  | Except.ok _ =>
    withTempCleanup (uploadVideoAfterTemp cfg env mediaType video)

/-- Asset-file events of the thumbnail handlers: `os.Create(filePath)` and
`os.Remove(filePath)` on the local asset path.  The deferred
`destFile.Close()` has no observable effect in this model and is not
traced. -/
inductive FsEvent where
  | create (path : String)
  | remove (path : String)
deriving DecidableEq, Repr

/-- The outcome of one run of a thumbnail upload handler. -/
structure ThumbResult where
  status : Nat
  payload : Option Video
  errorMsg : Option String
  fsEvents : List FsEvent
  dbWrites : List Video
deriving DecidableEq, Repr

/-- `respondWithError(w, code, msg, err)` for the thumbnail handlers. -/
def respondThumbError (code : Nat) (msg : String) : ThumbResult :=
  { status := code, payload := none, errorMsg := some msg,
    fsEvents := [], dbWrites := [] }

/-- `uuid.UUID.String()` on the model's opaque uuid, an injective
rendering; the handlers only concatenate it into file names. -/
def uuidString (id : Nat) : String := toString id

/-- Go `filepath.Join(assetsRoot, filename)`.  (Go also cleans redundant
separators; the handlers below only ever compare the joined path with
itself, so a plain separator insertion is faithful for every property
stated here.) -/
def filepathJoin (a b : String) : String := a ++ "/" ++ b

/-- The content-type switch of thumbnail variant A (part_001 lines 53-65):
JPEG, PNG, GIF and PDF are mapped to an extension, everything else falls to
the rejecting default branch (`none`). -/
def extForContentTypeA (contentType : String) : Option String :=
  match contentType with
  | "image/jpeg" => some ".jpg"
  | "image/png" => some ".png"
  | "image/gif" => some ".gif"
  | "application/pdf" => some ".pdf"
  | _ => none

/-- The media-type switch of thumbnail variant B (part_001 lines 175-183):
only JPEG and PNG are allowed. -/
def extForContentTypeB (mediaType : String) : Option String :=
  match mediaType with
  | "image/jpeg" => some ".jpg"
  | "image/png" => some ".png"
  | _ => none

/-- The thumbnail URL both disk-backed variants persist:
`http://localhost:<port>/assets/<filename>`. -/
def thumbnailURLFor (port filename : String) : String :=
  "http://localhost:" ++ port ++ "/assets/" ++ filename

/-- Oracles for thumbnail variant A (part_001 lines 14-113), in program
order: `uuid.Parse`, `auth.GetBearerToken`, `auth.ValidateJWT`,
`r.ParseMultipartForm`, `r.FormFile("thumbnail")`, `cfg.db.GetVideo`,
`os.Create` on the asset path, `io.Copy`, `cfg.db.UpdateVideo`. -/
structure ThumbEnvA where
  parsedVideoID : Except String Nat
  bearerToken : Except String String
  validateJWT : String → Except String Nat
  parseMultipartForm : Except String Unit
  formFile : Except String FormFilePart
  getVideo : Nat → Except String Video
  createFile : String → Except String Unit
  copyFile : Except String Nat
  updateVideo : Video → Except String Unit

/-- `handlerUploadThumbnail`, variant A (part_001 lines 14-113): raw
`Content-Type` header switch over four allowed types, asset file named
`<video-id><ext>`, and `os.Remove(filePath)` before the 500 response when
`UpdateVideo` fails after the file was written. -/
def handlerUploadThumbnailA (cfg : Config) (env : ThumbEnvA) : ThumbResult :=
  match env.parsedVideoID with
  | Except.error _ => respondThumbError 400 "Invalid ID"
  | Except.ok videoID =>
  match env.bearerToken with
  | Except.error _ => respondThumbError 401 "Couldn't find JWT"
  | Except.ok token =>
  match env.validateJWT token with
  | Except.error _ => respondThumbError 401 "Couldn't validate JWT"
  | Except.ok userID =>
  match env.parseMultipartForm with
  | Except.error _ => respondThumbError 400 "Error parsing multipart form"
  | Except.ok _ =>
  match env.formFile with
  | Except.error _ => respondThumbError 400 "Error getting thumbnail from form"
  | Except.ok part =>
  let contentType := part.contentTypeHeader
  match extForContentTypeA contentType with
  | none => respondThumbError 400 "Unsupported file type"
  | some ext =>
  match env.getVideo videoID with
  | Except.error _ => respondThumbError 404 "Couldn't get video"
  | Except.ok video =>
  if video.userID ≠ userID then
    respondThumbError 401 "You don't own this video"
  else
  let filename := uuidString videoID ++ ext
  let filePath := filepathJoin cfg.assetsRoot filename
  match env.createFile filePath with
  | Except.error _ => respondThumbError 500 "Couldn't create file"
  | Except.ok _ =>
  match env.copyFile with
  | Except.error _ =>
    { respondThumbError 500 "Couldn't save file" with
        fsEvents := [FsEvent.create filePath] }
  | Except.ok _ =>
  let thumbnailURL := thumbnailURLFor cfg.port filename
  let video' := { video with thumbnailURL := some thumbnailURL }
  match env.updateVideo video' with
  | Except.error _ =>
    { respondThumbError 500 "Couldn't update video" with
        fsEvents := [FsEvent.create filePath, FsEvent.remove filePath],
        dbWrites := [video'] }
  | Except.ok _ =>
    { status := 200, payload := some video', errorMsg := none,
      fsEvents := [FsEvent.create filePath], dbWrites := [video'] }

/-- Oracles for thumbnail variant B (part_001 lines 130-237): variant A's
oracles plus `mime.ParseMediaType` and `rand.Read` (32 random bytes). -/
structure ThumbEnvB where
  parsedVideoID : Except String Nat
  bearerToken : Except String String
  validateJWT : String → Except String Nat
  parseMultipartForm : Except String Unit
  formFile : Except String FormFilePart
  parseMediaType : String → Except String String
  getVideo : Nat → Except String Video
  randBytes : Except String (List Nat)
  createFile : String → Except String Unit
  copyFile : Except String Nat
  updateVideo : Video → Except String Unit

/-- `handlerUploadThumbnail`, variant B (part_001 lines 130-237): parsed
media type restricted to JPEG/PNG, asset file named by raw-URL-base64 of 32
random bytes, and `os.Remove(filePath)` before the 500 response when
`UpdateVideo` fails after the file was written. -/
def handlerUploadThumbnailB (cfg : Config) (env : ThumbEnvB) : ThumbResult :=
  match env.parsedVideoID with
  | Except.error _ => respondThumbError 400 "Invalid ID"
  | Except.ok videoID =>
  match env.bearerToken with
  | Except.error _ => respondThumbError 401 "Couldn't find JWT"
  | Except.ok token =>
  match env.validateJWT token with
  | Except.error _ => respondThumbError 401 "Couldn't validate JWT"
  | Except.ok userID =>
  match env.parseMultipartForm with
  | Except.error _ => respondThumbError 400 "Error parsing multipart form"
  | Except.ok _ =>
  match env.formFile with
  | Except.error _ => respondThumbError 400 "Error getting thumbnail from form"
  | Except.ok part =>
  match env.parseMediaType part.contentTypeHeader with
  | Except.error _ => respondThumbError 400 "Invalid Content-Type header"
  | Except.ok mediaType =>
  match extForContentTypeB mediaType with
  | none =>
    respondThumbError 400 "File type not allowed. Only JPEG and PNG images are supported."
  | some ext =>
  match env.getVideo videoID with
  | Except.error _ => respondThumbError 404 "Couldn't get video"
  | Except.ok video =>
  if video.userID ≠ userID then
    respondThumbError 401 "You don't own this video"
  else
  match env.randBytes with
  | Except.error _ => respondThumbError 500 "Couldn't generate random filename"
  | Except.ok randomBytes =>
  let filename := base64RawURLEncode randomBytes ++ ext
  let filePath := filepathJoin cfg.assetsRoot filename
  match env.createFile filePath with
  | Except.error _ => respondThumbError 500 "Couldn't create file"
  | Except.ok _ =>
  match env.copyFile with
  | Except.error _ =>
    { respondThumbError 500 "Couldn't save file" with
        fsEvents := [FsEvent.create filePath] }
  | Except.ok _ =>
  let thumbnailURL := thumbnailURLFor cfg.port filename
  let video' := { video with thumbnailURL := some thumbnailURL }
  match env.updateVideo video' with
  | Except.error _ =>
    { respondThumbError 500 "Couldn't update video" with
        fsEvents := [FsEvent.create filePath, FsEvent.remove filePath],
        dbWrites := [video'] }
  | Except.ok _ =>
    { status := 200, payload := some video', errorMsg := none,
      fsEvents := [FsEvent.create filePath], dbWrites := [video'] }

/-- Oracles for thumbnail variant C (part_002), in program order:
`uuid.Parse`, `auth.GetBearerToken`, `auth.ValidateJWT`,
`r.ParseMultipartForm`, `r.FormFile("thumbnail")`, `io.ReadAll` of the part
(the image bytes), `cfg.db.GetVideo`, `cfg.db.UpdateVideo`. -/
structure ThumbEnvC where
  parsedVideoID : Except String Nat
  bearerToken : Except String String
  validateJWT : String → Except String Nat
  parseMultipartForm : Except String Unit
  formFile : Except String FormFilePart
  readAll : Except String (List Nat)
  getVideo : Nat → Except String Video
  updateVideo : Video → Except String Unit

/-- The inline data URL variant C persists (part_002 line 73):
`data:<content-type>;base64,<std-base64 of the bytes>`. -/
def dataURLFor (contentType : String) (imageData : List Nat) : String :=
  "data:" ++ contentType ++ ";base64," ++ base64StdEncode imageData

/-- `handlerUploadThumbnail`, variant C (part_002): the raw `Content-Type`
header is taken as-is — no parse, no allow-list — and embedded verbatim
into the stored data URL; no local file is touched. -/
def handlerUploadThumbnailC (_cfg : Config) (env : ThumbEnvC) : ThumbResult :=
  match env.parsedVideoID with
  | Except.error _ => respondThumbError 400 "Invalid ID"
  | Except.ok videoID =>
  match env.bearerToken with
  | Except.error _ => respondThumbError 401 "Couldn't find JWT"
  | Except.ok token =>
  match env.validateJWT token with
  | Except.error _ => respondThumbError 401 "Couldn't validate JWT"
  | Except.ok userID =>
  match env.parseMultipartForm with
  | Except.error _ => respondThumbError 400 "Error parsing multipart form"
  | Except.ok _ =>
  match env.formFile with
  | Except.error _ => respondThumbError 400 "Error getting thumbnail from form"
  | Except.ok part =>
  let contentType := part.contentTypeHeader
  match env.readAll with
  | Except.error _ => respondThumbError 500 "Error reading thumbnail data"
  | Except.ok imageData =>
  match env.getVideo videoID with
  | Except.error _ => respondThumbError 404 "Couldn't get video"
  | Except.ok video =>
  if video.userID ≠ userID then
    respondThumbError 401 "You don't own this video"
  else
  let dataURL := dataURLFor contentType imageData
  let video' := { video with thumbnailURL := some dataURL }
  match env.updateVideo video' with
  | Except.error _ =>
    { respondThumbError 500 "Couldn't update video" with dbWrites := [video'] }
  | Except.ok _ =>
    { status := 200, payload := some video', errorMsg := none,
      fsEvents := [], dbWrites := [video'] }

/-! ### Helper lemmas -/

theorem splitOnChar_eq_single (sep : Char) (l : List Char) (h : sep ∉ l) :
    splitOnChar sep l = [l] := by
  induction l with
  | nil => rfl
  | cons c cs ih =>
    rw [List.mem_cons] at h
    push_neg at h
    obtain ⟨h1, h2⟩ := h
    simp only [splitOnChar]
    rw [if_neg fun hc => h1 hc.symm, ih h2]

theorem strSplitComma_eq_single (s : String) (h : ',' ∉ s.data) :
    strSplitComma s = [s] := by
  obtain ⟨d⟩ := s
  simp only [strSplitComma]
  rw [splitOnChar_eq_single ',' d h]
  rfl

theorem hexDigits_getD_ne_comma : ∀ i < 16, hexDigits.getD i '0' ≠ ',' := by decide

theorem comma_not_mem_hexEncodeByte (b : Nat) : ',' ∉ hexEncodeByte b := by
  have h1 := hexDigits_getD_ne_comma (b / 16 % 16) (Nat.mod_lt _ (by norm_num))
  have h2 := hexDigits_getD_ne_comma (b % 16) (Nat.mod_lt _ (by norm_num))
  simp only [hexEncodeByte, List.mem_cons, List.not_mem_nil, or_false]
  rintro (hc | hc)
  · exact h1 hc.symm
  · exact h2 hc.symm

theorem comma_not_mem_hexEncode (bs : List Nat) : ',' ∉ (hexEncode bs).data := by
  show ',' ∉ (bs.map hexEncodeByte).flatten
  intro hmem
  rw [List.mem_flatten] at hmem
  obtain ⟨l, hl, hc⟩ := hmem
  rw [List.mem_map] at hl
  obtain ⟨b, _, rfl⟩ := hl
  exact comma_not_mem_hexEncodeByte b hc

theorem comma_not_mem_videoURLFor (bucket region filename : String)
    (hb : ',' ∉ bucket.data) (hr : ',' ∉ region.data) (hf : ',' ∉ filename.data) :
    ',' ∉ (videoURLFor bucket region filename).data := by
  simp only [videoURLFor, String.data_append, List.mem_append]
  rintro (((((hc | hc) | hc) | hc) | hc) | hc)
  · revert hc; decide
  · exact hb hc
  · revert hc; decide
  · exact hr hc
  · revert hc; decide
  · exact hf hc

theorem uploadVideoAfterTemp_tempEvents (cfg : Config) (env : VideoUploadEnv)
    (mediaType : String) (video : Video) :
    (uploadVideoAfterTemp cfg env mediaType video).tempEvents = [] := by
  unfold uploadVideoAfterTemp
  rcases env.copyToTemp with _ | _
  · rfl
  rcases env.seekStart with _ | _
  · rfl
  rcases env.randBytes with _ | bytes
  · rfl
  simp only [addPut, addWrite]
  rcases env.putObject cfg.s3Bucket (hexEncode bytes ++ ".mp4") mediaType with _ | _
  · rfl
  rcases env.updateVideo _ with _ | _ <;> rfl

/-! ### Theorems for the claims -/

/-- Claim C3: the Signed-URL Generator returns the record unchanged and no
error when the location field is absent or does not split into exactly two
comma-separated parts, and replaces the location by the presigned URL when
it does. -/
theorem dbVideoToSignedVideo_spec :
    (∀ (presign : PresignOracle) (video : Video),
      video.videoURL = none → dbVideoToSignedVideo presign video = Except.ok video) ∧
    (∀ (presign : PresignOracle) (video : Video) (url : String),
      video.videoURL = some url → (strSplitComma url).length ≠ 2 →
      dbVideoToSignedVideo presign video = Except.ok video) ∧
    (∀ (presign : PresignOracle) (video : Video) (url bucket key signedURL : String),
      video.videoURL = some url → strSplitComma url = [bucket, key] →
      presign bucket key = Except.ok signedURL →
      dbVideoToSignedVideo presign video =
        Except.ok { video with videoURL := some signedURL }) := by
  refine ⟨fun presign video h => ?_, fun presign video url h h2 => ?_,
          fun presign video url bucket key signedURL h h2 h3 => ?_⟩
  · simp [dbVideoToSignedVideo, h]
  · simp only [dbVideoToSignedVideo, h]
    rw [if_pos h2]
  · simp [dbVideoToSignedVideo, h, h2, h3]

/-- Example videos and a concrete presign oracle used by the witnesses. -/
def exVideoNoURL : Video :=
  { id := 3, userID := 42, title := "t", description := "d",
    thumbnailURL := none, videoURL := none }

def exVideoMalformed : Video :=
  { exVideoNoURL with videoURL := some "no-comma-here" }

def exVideoTwoPart : Video :=
  { exVideoNoURL with videoURL := some "tubely-12345,abc.mp4" }

def exPresign : PresignOracle := fun bucket key =>
  Except.ok ("https://sign.example/" ++ bucket ++ "/" ++ key ++ "?X-Amz-Expires=3600")

def exSignedURL : String :=
  "https://sign.example/tubely-12345/abc.mp4?X-Amz-Expires=3600"

/-- Witness for C3 at concrete records. -/
theorem dbVideoToSignedVideo_spec_witness :
    dbVideoToSignedVideo exPresign exVideoNoURL = Except.ok exVideoNoURL ∧
    dbVideoToSignedVideo exPresign exVideoMalformed = Except.ok exVideoMalformed ∧
    dbVideoToSignedVideo exPresign exVideoTwoPart =
      Except.ok { exVideoTwoPart with videoURL := some exSignedURL } :=
  ⟨dbVideoToSignedVideo_spec.1 exPresign exVideoNoURL rfl,
   dbVideoToSignedVideo_spec.2.1 exPresign exVideoMalformed "no-comma-here" rfl (by decide),
   dbVideoToSignedVideo_spec.2.2 exPresign exVideoTwoPart "tubely-12345,abc.mp4"
     "tubely-12345" "abc.mp4" exSignedURL rfl (by decide) rfl⟩

/-- Claim C8: the aspect classifier is a pure function (deterministic and
side-effect-free by construction) whose output is always one of the three
labels, with tolerance 1/10 on width/height, and the three sample inputs
classify as documented. -/
theorem ratioLabel_spec :
    (∀ width height : ℚ,
      ratioLabel width height = "16:9" ∨ ratioLabel width height = "9:16" ∨
      ratioLabel width height = "other") ∧
    ratioLabel 1920 1080 = "16:9" ∧
    ratioLabel 1080 1920 = "9:16" ∧
    ratioLabel 1000 1000 = "other" := by
  refine ⟨fun width height => ?_, by norm_num [ratioLabel, abs_lt],
    by norm_num [ratioLabel, abs_lt], by norm_num [ratioLabel, abs_lt]⟩
  simp only [ratioLabel]
  split
  · exact Or.inl rfl
  split
  · exact Or.inr (Or.inl rfl)
  · exact Or.inr (Or.inr rfl)

/-- Claim C9: when ffprobe runs successfully and its output decodes but the
stream list is empty, the prober fails with the descriptive error instead of
classifying zero-valued dimensions. -/
theorem getVideoAspectRatio_empty_streams_error (runResult : Except String Unit)
    (decoded : FFProbeOutput) (hrun : runResult = Except.ok ())
    (hs : decoded.streams = []) :
    getVideoAspectRatio runResult (Except.ok decoded) =
      Except.error "no streams found in video file" := by
  subst hrun
  simp [getVideoAspectRatio, hs]

/-- Witness for C9 at the concrete empty probe output. -/
theorem getVideoAspectRatio_empty_streams_error_witness :
    getVideoAspectRatio (Except.ok ()) (Except.ok ⟨[]⟩) =
      Except.error "no streams found in video file" :=
  getVideoAspectRatio_empty_streams_error (Except.ok ()) ⟨[]⟩ rfl rfl

/-! ### Claim C1 -/

theorem comma_not_mem_uploadKey (bs : List Nat) :
    ',' ∉ (hexEncode bs ++ ".mp4").data := by
  rw [String.data_append]
  rintro hc
  rcases List.mem_append.mp hc with hc | hc
  · exact comma_not_mem_hexEncode bs hc
  · revert hc; decide

theorem uploadURL_roundtrip (presign : PresignOracle) (video : Video)
    (bucket region : String) (bs : List Nat)
    (hb : ',' ∉ bucket.data) (hr : ',' ∉ region.data) :
    strSplitComma (videoURLFor bucket region (hexEncode bs ++ ".mp4")) =
      [videoURLFor bucket region (hexEncode bs ++ ".mp4")] ∧
    dbVideoToSignedVideo presign
        { video with videoURL := some (videoURLFor bucket region (hexEncode bs ++ ".mp4")) } =
      Except.ok
        { video with videoURL := some (videoURLFor bucket region (hexEncode bs ++ ".mp4")) } := by
  have hsingle := strSplitComma_eq_single _
    (comma_not_mem_videoURLFor bucket region _ hb hr (comma_not_mem_uploadKey bs))
  exact ⟨hsingle, by simp [dbVideoToSignedVideo, hsingle]⟩

/-- Claim C1 (amended): every record the video upload handler writes has its
video-location field set to the single https URL
`https://<bucket>.s3.<region>.amazonaws.com/<hex-key>.mp4` — not a
comma-joined `(bucket, key)` pair.  Whenever the configured bucket and
region contain no comma (the hex key never does), that stored string splits
into one part under the comma separator, not two, so the Signed-URL
Generator treats it as nothing-to-sign and returns the record unchanged
instead of recovering `(bucket, key)`. -/
theorem uploadVideo_persists_https_location (cfg : Config) (env : VideoUploadEnv)
    (presign : PresignOracle) (v' : Video)
    (hb : ',' ∉ cfg.s3Bucket.data) (hr : ',' ∉ cfg.s3Region.data)
    (hmem : v' ∈ (handlerUploadVideo cfg env).dbWrites) :
    ∃ url randomBytes,
      env.randBytes = Except.ok randomBytes ∧
      url = videoURLFor cfg.s3Bucket cfg.s3Region (hexEncode randomBytes ++ ".mp4") ∧
      v'.videoURL = some url ∧
      strSplitComma url = [url] ∧
      dbVideoToSignedVideo presign v' = Except.ok v' := by
  obtain ⟨pid, btok, jwtf, gvf, bsz, ff, pmt, ctmp, cpy, sk, rb, pof, uvf⟩ := env
  simp only [handlerUploadVideo] at hmem
  rcases pid with e1 | vid
  · simp [respondVideoError] at hmem
  rcases btok with e2 | tok
  · simp [respondVideoError] at hmem
  dsimp only [] at hmem
  rcases h3 : jwtf tok with e3 | uid
  · simp [h3, respondVideoError] at hmem
  rw [h3] at hmem
  dsimp only [] at hmem
  rcases h4 : gvf vid with e4 | video
  · simp [h4, respondVideoError] at hmem
  rw [h4] at hmem
  dsimp only [] at hmem
  by_cases hown : video.userID = uid
  · rw [if_neg (by simp [hown])] at hmem
    by_cases hsz : maxUploadSize < bsz
    · rw [if_pos hsz] at hmem
      simp [respondVideoError] at hmem
    rw [if_neg hsz] at hmem
    rcases ff with e6 | part
    · simp [respondVideoError] at hmem
    dsimp only [] at hmem
    rcases h7 : pmt part.contentTypeHeader with e7 | mediaType
    · simp [h7, respondVideoError] at hmem
    rw [h7] at hmem
    dsimp only [] at hmem
    by_cases hmt : mediaType = "video/mp4"
    · rw [if_neg (by simp [hmt])] at hmem
      rcases ctmp with e8 | u8
      · simp [respondVideoError] at hmem
      dsimp only [] at hmem
      simp only [withTempCleanup, uploadVideoAfterTemp] at hmem
      rcases cpy with e9 | n9
      · simp [respondVideoError] at hmem
      dsimp only [] at hmem
      rcases sk with e10 | u10
      · simp [respondVideoError] at hmem
      dsimp only [] at hmem
      rcases rb with e11 | randomBytes
      · simp [respondVideoError] at hmem
      dsimp only [] at hmem
      simp only [addPut] at hmem
      rcases h12 : pof cfg.s3Bucket (hexEncode randomBytes ++ ".mp4") mediaType with e12 | u12
      · rw [h12] at hmem
        simp [respondVideoError] at hmem
      rw [h12] at hmem
      simp only [addWrite] at hmem
      rcases h13 : uvf { video with videoURL := some (videoURLFor cfg.s3Bucket cfg.s3Region (hexEncode randomBytes ++ ".mp4")) } with e13 | u13 <;>
        rw [h13] at hmem <;> simp [respondVideoError] at hmem <;> subst hmem <;>
        exact ⟨_, randomBytes, rfl, rfl, rfl,
          (uploadURL_roundtrip presign video cfg.s3Bucket cfg.s3Region randomBytes hb hr).1,
          (uploadURL_roundtrip presign video cfg.s3Bucket cfg.s3Region randomBytes hb hr).2⟩
    · rw [if_pos hmt] at hmem
      simp [respondVideoError] at hmem
  · rw [if_pos hown] at hmem
    simp [respondVideoError] at hmem

/-- Concrete configuration and a fully successful upload environment. -/
def exCfg : Config :=
  { s3Bucket := "tubely-12345", s3Region := "us-east-1",
    assetsRoot := "assets", port := "8091" }

def exOwnerVideo : Video :=
  { id := 7, userID := 42, title := "boots", description := "a video",
    thumbnailURL := none, videoURL := none }

def exBytes : List Nat := List.replicate 32 171

def exEnvOK : VideoUploadEnv :=
  { parsedVideoID := Except.ok 7, bearerToken := Except.ok "token",
    validateJWT := fun _ => Except.ok 42,
    getVideo := fun _ => Except.ok exOwnerVideo,
    bodySize := 1000, formFile := Except.ok ⟨"video/mp4"⟩,
    parseMediaType := fun s => Except.ok s, createTemp := Except.ok (),
    copyToTemp := Except.ok 1000, seekStart := Except.ok (),
    randBytes := Except.ok exBytes,
    putObject := fun _ _ _ => Except.ok (),
    updateVideo := fun _ => Except.ok () }

/-- The location string the handler persists on the successful run above. -/
def exStoredURL : String :=
  videoURLFor "tubely-12345" "us-east-1" (hexEncode exBytes ++ ".mp4")

/-- Counterexample to claim C1 as stated: on a fully successful concrete
run, the record the handler writes holds an https URL whose comma-split has
one part, not two, so the Signed-URL Generator cannot recover a
`(bucket, key)` pair from it and returns the record unchanged. -/
theorem uploadVideo_comma_encoding_counterexample :
    (handlerUploadVideo exCfg exEnvOK).dbWrites =
      [{ exOwnerVideo with videoURL := some exStoredURL }] ∧
    strSplitComma exStoredURL = [exStoredURL] ∧
    (strSplitComma exStoredURL).length = 1 ∧
    dbVideoToSignedVideo exPresign { exOwnerVideo with videoURL := some exStoredURL } =
      Except.ok { exOwnerVideo with videoURL := some exStoredURL } := by decide

/-- Witness for the amended C1 at the concrete successful run. -/
theorem uploadVideo_persists_https_location_witness :
    ∃ url randomBytes,
      exEnvOK.randBytes = Except.ok randomBytes ∧
      url = videoURLFor exCfg.s3Bucket exCfg.s3Region (hexEncode randomBytes ++ ".mp4") ∧
      ({ exOwnerVideo with videoURL := some exStoredURL } : Video).videoURL = some url ∧
      strSplitComma url = [url] ∧
      dbVideoToSignedVideo exPresign { exOwnerVideo with videoURL := some exStoredURL } =
        Except.ok { exOwnerVideo with videoURL := some exStoredURL } :=
  uploadVideo_persists_https_location exCfg exEnvOK exPresign
    { exOwnerVideo with videoURL := some exStoredURL } (by decide) (by decide) (by decide)

/-! ### Claim C5 -/

/-- Claim C5: on every exit path of the video upload handler, either
staging never produced a temporary file, or the trace is exactly create,
then close, then remove — the file is closed before it is removed and
removed before the handler returns, on success and on every failure. -/
theorem uploadVideo_tempfile_cleanup (cfg : Config) (env : VideoUploadEnv) :
    (handlerUploadVideo cfg env).tempEvents = [] ∨
    (handlerUploadVideo cfg env).tempEvents =
      [TempEvent.create, TempEvent.close, TempEvent.remove] := by
  simp only [handlerUploadVideo]
  split
  · exact Or.inl rfl
  split
  · exact Or.inl rfl
  split
  · exact Or.inl rfl
  split
  · exact Or.inl rfl
  split
  · exact Or.inl rfl
  split
  · exact Or.inl rfl
  split
  · exact Or.inl rfl
  split
  · exact Or.inl rfl
  split
  · exact Or.inl rfl
  exact Or.inr (by simp [withTempCleanup, uploadVideoAfterTemp_tempEvents])

/-! ### Claim C2 -/

/-- Claim C2: in all four upload handlers, an authenticated caller who is
not the record's owner gets status 401 with the fixed message, the payload
carries no record, and no metadata-store write happens — the stored record
is unchanged and not leaked. -/
theorem uploadHandlers_nonowner_unauthorized :
    (∀ (cfg : Config) (env : VideoUploadEnv) (vid uid : Nat) (tok : String) (video : Video),
      env.parsedVideoID = Except.ok vid → env.bearerToken = Except.ok tok →
      env.validateJWT tok = Except.ok uid → env.getVideo vid = Except.ok video →
      video.userID ≠ uid →
      handlerUploadVideo cfg env = respondVideoError 401 "You don't own this video") ∧
    (∀ (cfg : Config) (env : ThumbEnvA) (vid uid : Nat) (tok : String)
        (part : FormFilePart) (ext : String) (video : Video),
      env.parsedVideoID = Except.ok vid → env.bearerToken = Except.ok tok →
      env.validateJWT tok = Except.ok uid → env.parseMultipartForm = Except.ok () →
      env.formFile = Except.ok part → extForContentTypeA part.contentTypeHeader = some ext →
      env.getVideo vid = Except.ok video → video.userID ≠ uid →
      handlerUploadThumbnailA cfg env = respondThumbError 401 "You don't own this video") ∧
    (∀ (cfg : Config) (env : ThumbEnvB) (vid uid : Nat) (tok : String)
        (part : FormFilePart) (mediaType ext : String) (video : Video),
      env.parsedVideoID = Except.ok vid → env.bearerToken = Except.ok tok →
      env.validateJWT tok = Except.ok uid → env.parseMultipartForm = Except.ok () →
      env.formFile = Except.ok part →
      env.parseMediaType part.contentTypeHeader = Except.ok mediaType →
      extForContentTypeB mediaType = some ext →
      env.getVideo vid = Except.ok video → video.userID ≠ uid →
      handlerUploadThumbnailB cfg env = respondThumbError 401 "You don't own this video") ∧
    (∀ (cfg : Config) (env : ThumbEnvC) (vid uid : Nat) (tok : String)
        (part : FormFilePart) (imageData : List Nat) (video : Video),
      env.parsedVideoID = Except.ok vid → env.bearerToken = Except.ok tok →
      env.validateJWT tok = Except.ok uid → env.parseMultipartForm = Except.ok () →
      env.formFile = Except.ok part → env.readAll = Except.ok imageData →
      env.getVideo vid = Except.ok video → video.userID ≠ uid →
      handlerUploadThumbnailC cfg env = respondThumbError 401 "You don't own this video") := by
  refine ⟨?_, ?_, ?_, ?_⟩
  · intro cfg env vid uid tok video h1 h2 h3 h4 h5
    simp only [handlerUploadVideo, h1, h2, h3, h4]
    rw [if_pos h5]
  · intro cfg env vid uid tok part ext video h1 h2 h3 h4 h5 h6 h7 h8
    simp only [handlerUploadThumbnailA, h1, h2, h3, h4, h5, h6, h7]
    rw [if_pos h8]
  · intro cfg env vid uid tok part mediaType ext video h1 h2 h3 h4 h5 h6 h7 h8 h9
    simp only [handlerUploadThumbnailB, h1, h2, h3, h4, h5, h6, h7, h8]
    rw [if_pos h9]
  · intro cfg env vid uid tok part imageData video h1 h2 h3 h4 h5 h6 h7 h8
    simp only [handlerUploadThumbnailC, h1, h2, h3, h4, h5, h6, h7]
    rw [if_pos h8]

/-- Owner-success thumbnail environments for the witnesses, and their
non-owner / failing-store variants. -/
def exThumbEnvA : ThumbEnvA :=
  { parsedVideoID := Except.ok 7, bearerToken := Except.ok "token",
    validateJWT := fun _ => Except.ok 42, parseMultipartForm := Except.ok (),
    formFile := Except.ok ⟨"image/png"⟩,
    getVideo := fun _ => Except.ok exOwnerVideo,
    createFile := fun _ => Except.ok (), copyFile := Except.ok 10,
    updateVideo := fun _ => Except.ok () }

def exThumbEnvB : ThumbEnvB :=
  { parsedVideoID := Except.ok 7, bearerToken := Except.ok "token",
    validateJWT := fun _ => Except.ok 42, parseMultipartForm := Except.ok (),
    formFile := Except.ok ⟨"image/png"⟩,
    parseMediaType := fun s => Except.ok s,
    getVideo := fun _ => Except.ok exOwnerVideo,
    randBytes := Except.ok exBytes,
    createFile := fun _ => Except.ok (), copyFile := Except.ok 10,
    updateVideo := fun _ => Except.ok () }

def exThumbEnvC : ThumbEnvC :=
  { parsedVideoID := Except.ok 7, bearerToken := Except.ok "token",
    validateJWT := fun _ => Except.ok 42, parseMultipartForm := Except.ok (),
    formFile := Except.ok ⟨"image/png"⟩, readAll := Except.ok [1, 2, 3],
    getVideo := fun _ => Except.ok exOwnerVideo,
    updateVideo := fun _ => Except.ok () }

def exEnvNonOwner : VideoUploadEnv :=
  { exEnvOK with validateJWT := fun _ => Except.ok 99 }

def exThumbEnvANonOwner : ThumbEnvA :=
  { exThumbEnvA with validateJWT := fun _ => Except.ok 99 }

def exThumbEnvBNonOwner : ThumbEnvB :=
  { exThumbEnvB with validateJWT := fun _ => Except.ok 99 }

def exThumbEnvCNonOwner : ThumbEnvC :=
  { exThumbEnvC with validateJWT := fun _ => Except.ok 99 }

/-- Witness for C2: caller 99 against the record owned by 42, in all four
handlers. -/
theorem uploadHandlers_nonowner_unauthorized_witness :
    handlerUploadVideo exCfg exEnvNonOwner =
      respondVideoError 401 "You don't own this video" ∧
    handlerUploadThumbnailA exCfg exThumbEnvANonOwner =
      respondThumbError 401 "You don't own this video" ∧
    handlerUploadThumbnailB exCfg exThumbEnvBNonOwner =
      respondThumbError 401 "You don't own this video" ∧
    handlerUploadThumbnailC exCfg exThumbEnvCNonOwner =
      respondThumbError 401 "You don't own this video" :=
  ⟨uploadHandlers_nonowner_unauthorized.1 exCfg exEnvNonOwner 7 99 "token"
     exOwnerVideo rfl rfl rfl rfl (by decide),
   uploadHandlers_nonowner_unauthorized.2.1 exCfg exThumbEnvANonOwner 7 99 "token"
     ⟨"image/png"⟩ ".png" exOwnerVideo rfl rfl rfl rfl rfl rfl rfl (by decide),
   uploadHandlers_nonowner_unauthorized.2.2.1 exCfg exThumbEnvBNonOwner 7 99 "token"
     ⟨"image/png"⟩ "image/png" ".png" exOwnerVideo rfl rfl rfl rfl rfl rfl rfl rfl (by decide),
   uploadHandlers_nonowner_unauthorized.2.2.2 exCfg exThumbEnvCNonOwner 7 99 "token"
     ⟨"image/png"⟩ [1, 2, 3] exOwnerVideo rfl rfl rfl rfl rfl rfl rfl (by decide)⟩

/-! ### Claim C4 -/

/-- Claim C4: the video upload handler rejects with a 400 client error any
upload whose parsed declared media type is not exactly "video/mp4"; the
rejection carries no record, and no temp file, S3 put or store write
happens — no fallback sniffing or auto-correction. -/
theorem uploadVideo_rejects_non_mp4 (cfg : Config) (env : VideoUploadEnv)
    (vid uid : Nat) (tok : String) (video : Video) (part : FormFilePart)
    (mediaType : String)
    (h1 : env.parsedVideoID = Except.ok vid) (h2 : env.bearerToken = Except.ok tok)
    (h3 : env.validateJWT tok = Except.ok uid) (h4 : env.getVideo vid = Except.ok video)
    (hown : video.userID = uid) (hsz : env.bodySize ≤ maxUploadSize)
    (h6 : env.formFile = Except.ok part)
    (h7 : env.parseMediaType part.contentTypeHeader = Except.ok mediaType)
    (hmt : mediaType ≠ "video/mp4") :
    handlerUploadVideo cfg env =
      respondVideoError 400 "File type not allowed. Only MP4 videos are supported." := by
  simp only [handlerUploadVideo, h1, h2, h3, h4]
  rw [if_neg (by simp [hown])]
  rw [if_neg (not_lt.mpr hsz)]
  simp only [h6, h7]
  rw [if_pos hmt]

/-- A declared `video/quicktime` upload, otherwise identical to the
successful run. -/
def exEnvQuicktime : VideoUploadEnv :=
  { exEnvOK with formFile := Except.ok ⟨"video/quicktime"⟩ }

/-- Witness for C4: declaring video/quicktime is rejected with the 400
response. -/
theorem uploadVideo_rejects_non_mp4_witness :
    handlerUploadVideo exCfg exEnvQuicktime =
      respondVideoError 400 "File type not allowed. Only MP4 videos are supported." :=
  uploadVideo_rejects_non_mp4 exCfg exEnvQuicktime 7 42 "token" exOwnerVideo
    ⟨"video/quicktime"⟩ "video/quicktime" rfl rfl rfl rfl (by decide) (by decide)
    rfl rfl (by decide)

/-! ### Claim C6 -/

/-- Claim C6: with the request body over the 1 GiB cap, every path of the
video upload handler ends in a 4xx client error (400, 401 or 404 — the
oversize itself surfaces as 400 from the form read), and no temporary
staging file, S3 put or store write ever happens. -/
theorem uploadVideo_oversized_body_rejected (cfg : Config) (env : VideoUploadEnv)
    (hbig : maxUploadSize < env.bodySize) :
    ((handlerUploadVideo cfg env).status = 400 ∨
      (handlerUploadVideo cfg env).status = 401 ∨
      (handlerUploadVideo cfg env).status = 404) ∧
    (handlerUploadVideo cfg env).tempEvents = [] ∧
    (handlerUploadVideo cfg env).s3Puts = [] ∧
    (handlerUploadVideo cfg env).dbWrites = [] := by
  simp only [handlerUploadVideo]
  split
  · exact ⟨Or.inl rfl, rfl, rfl, rfl⟩
  split
  · exact ⟨Or.inr (Or.inl rfl), rfl, rfl, rfl⟩
  split
  · exact ⟨Or.inr (Or.inl rfl), rfl, rfl, rfl⟩
  split
  · exact ⟨Or.inr (Or.inr rfl), rfl, rfl, rfl⟩
  split
  · exact ⟨Or.inr (Or.inl rfl), rfl, rfl, rfl⟩
  exact ⟨Or.inl rfl, rfl, rfl, rfl⟩

/-- A request one byte over the 1 GiB cap, otherwise identical to the
successful run. -/
def exEnvOversized : VideoUploadEnv :=
  { exEnvOK with bodySize := maxUploadSize + 1 }

/-- Witness for C6 at the concrete oversized request. -/
theorem uploadVideo_oversized_body_rejected_witness :
    ((handlerUploadVideo exCfg exEnvOversized).status = 400 ∨
      (handlerUploadVideo exCfg exEnvOversized).status = 401 ∨
      (handlerUploadVideo exCfg exEnvOversized).status = 404) ∧
    (handlerUploadVideo exCfg exEnvOversized).tempEvents = [] ∧
    (handlerUploadVideo exCfg exEnvOversized).s3Puts = [] ∧
    (handlerUploadVideo exCfg exEnvOversized).dbWrites = [] :=
  uploadVideo_oversized_body_rejected exCfg exEnvOversized (by decide)

/-! ### Claim C7 -/

/-- Claim C7: in both disk-backed thumbnail variants, when the
metadata-store update fails after the local asset file was written, the
handler removes that same file (create followed by remove of the identical
path) and returns the 500 server error — no orphaned local file. -/
theorem thumbnail_update_failure_cleanup :
    (∀ (cfg : Config) (env : ThumbEnvA) (vid uid : Nat) (tok : String)
        (part : FormFilePart) (ext : String) (video : Video) (n : Nat) (e : String),
      env.parsedVideoID = Except.ok vid → env.bearerToken = Except.ok tok →
      env.validateJWT tok = Except.ok uid → env.parseMultipartForm = Except.ok () →
      env.formFile = Except.ok part → extForContentTypeA part.contentTypeHeader = some ext →
      env.getVideo vid = Except.ok video → video.userID = uid →
      env.createFile (filepathJoin cfg.assetsRoot (uuidString vid ++ ext)) = Except.ok () →
      env.copyFile = Except.ok n →
      env.updateVideo { video with thumbnailURL := some (thumbnailURLFor cfg.port (uuidString vid ++ ext)) } = Except.error e →
      handlerUploadThumbnailA cfg env =
        { status := 500, payload := none, errorMsg := some "Couldn't update video",
          fsEvents := [FsEvent.create (filepathJoin cfg.assetsRoot (uuidString vid ++ ext)), FsEvent.remove (filepathJoin cfg.assetsRoot (uuidString vid ++ ext))],
          dbWrites := [{ video with thumbnailURL := some (thumbnailURLFor cfg.port (uuidString vid ++ ext)) }] }) ∧
    (∀ (cfg : Config) (env : ThumbEnvB) (vid uid : Nat) (tok : String)
        (part : FormFilePart) (mediaType ext : String) (video : Video)
        (randomBytes : List Nat) (n : Nat) (e : String),
      env.parsedVideoID = Except.ok vid → env.bearerToken = Except.ok tok →
      env.validateJWT tok = Except.ok uid → env.parseMultipartForm = Except.ok () →
      env.formFile = Except.ok part →
      env.parseMediaType part.contentTypeHeader = Except.ok mediaType →
      extForContentTypeB mediaType = some ext →
      env.getVideo vid = Except.ok video → video.userID = uid →
      env.randBytes = Except.ok randomBytes →
      env.createFile (filepathJoin cfg.assetsRoot (base64RawURLEncode randomBytes ++ ext)) = Except.ok () →
      env.copyFile = Except.ok n →
      env.updateVideo { video with thumbnailURL := some (thumbnailURLFor cfg.port (base64RawURLEncode randomBytes ++ ext)) } = Except.error e →
      handlerUploadThumbnailB cfg env =
        { status := 500, payload := none, errorMsg := some "Couldn't update video",
          fsEvents := [FsEvent.create (filepathJoin cfg.assetsRoot (base64RawURLEncode randomBytes ++ ext)), FsEvent.remove (filepathJoin cfg.assetsRoot (base64RawURLEncode randomBytes ++ ext))],
          dbWrites := [{ video with thumbnailURL := some (thumbnailURLFor cfg.port (base64RawURLEncode randomBytes ++ ext)) }] }) := by
  constructor
  · intro cfg env vid uid tok part ext video n e h1 h2 h3 h4 h5 h6 h7 hown h9 h10 h11
    simp only [handlerUploadThumbnailA, h1, h2, h3, h4, h5, h6, h7]
    rw [if_neg (by simp [hown])]
    simp only [h9, h10, h11]
    rfl
  · intro cfg env vid uid tok part mediaType ext video randomBytes n e h1 h2 h3 h4 h5 h6 h7 h8 hown h10 h11 h12 h13
    simp only [handlerUploadThumbnailB, h1, h2, h3, h4, h5, h6, h7, h8]
    rw [if_neg (by simp [hown])]
    simp only [h10, h11, h12, h13]
    rfl

/-- Disk-backed thumbnail environments whose metadata-store update fails. -/
def exThumbEnvAUpdateFail : ThumbEnvA :=
  { exThumbEnvA with updateVideo := fun _ => Except.error "store down" }

def exThumbEnvBUpdateFail : ThumbEnvB :=
  { exThumbEnvB with updateVideo := fun _ => Except.error "store down" }

/-- Witness for C7: both disk variants delete the written asset file when
the store update fails. -/
theorem thumbnail_update_failure_cleanup_witness :
    handlerUploadThumbnailA exCfg exThumbEnvAUpdateFail =
      { status := 500, payload := none, errorMsg := some "Couldn't update video",
        fsEvents := [FsEvent.create (filepathJoin exCfg.assetsRoot (uuidString 7 ++ ".png")), FsEvent.remove (filepathJoin exCfg.assetsRoot (uuidString 7 ++ ".png"))],
        dbWrites := [{ exOwnerVideo with thumbnailURL := some (thumbnailURLFor exCfg.port (uuidString 7 ++ ".png")) }] } ∧
    handlerUploadThumbnailB exCfg exThumbEnvBUpdateFail =
      { status := 500, payload := none, errorMsg := some "Couldn't update video",
        fsEvents := [FsEvent.create (filepathJoin exCfg.assetsRoot (base64RawURLEncode exBytes ++ ".png")), FsEvent.remove (filepathJoin exCfg.assetsRoot (base64RawURLEncode exBytes ++ ".png"))],
        dbWrites := [{ exOwnerVideo with thumbnailURL := some (thumbnailURLFor exCfg.port (base64RawURLEncode exBytes ++ ".png")) }] } :=
  ⟨thumbnail_update_failure_cleanup.1 exCfg exThumbEnvAUpdateFail 7 42 "token"
     ⟨"image/png"⟩ ".png" exOwnerVideo 10 "store down"
     rfl rfl rfl rfl rfl rfl rfl (by decide) rfl rfl rfl,
   thumbnail_update_failure_cleanup.2 exCfg exThumbEnvBUpdateFail 7 42 "token"
     ⟨"image/png"⟩ "image/png" ".png" exOwnerVideo exBytes 10 "store down"
     rfl rfl rfl rfl rfl rfl rfl rfl (by decide) rfl rfl rfl rfl⟩

/-! ### Claim C10 -/

/-- Claim C10: the inline-data-URL thumbnail variant performs no
content-type validation at all — any declared Content-Type string passes,
and it is embedded verbatim as the MIME prefix of the stored data URL for
every upload that clears authentication and ownership. -/
theorem thumbnailC_accepts_any_content_type (cfg : Config) (env : ThumbEnvC)
    (vid uid : Nat) (tok : String) (part : FormFilePart) (imageData : List Nat)
    (video : Video)
    (h1 : env.parsedVideoID = Except.ok vid) (h2 : env.bearerToken = Except.ok tok)
    (h3 : env.validateJWT tok = Except.ok uid)
    (h4 : env.parseMultipartForm = Except.ok ())
    (h5 : env.formFile = Except.ok part) (h6 : env.readAll = Except.ok imageData)
    (h7 : env.getVideo vid = Except.ok video) (hown : video.userID = uid)
    (h8 : env.updateVideo { video with thumbnailURL := some (dataURLFor part.contentTypeHeader imageData) } = Except.ok ()) :
    handlerUploadThumbnailC cfg env =
      { status := 200,
        payload := some { video with thumbnailURL := some (dataURLFor part.contentTypeHeader imageData) },
        errorMsg := none, fsEvents := [],
        dbWrites := [{ video with thumbnailURL := some (dataURLFor part.contentTypeHeader imageData) }] } := by
  simp only [handlerUploadThumbnailC, h1, h2, h3, h4, h5, h6, h7]
  rw [if_neg (by simp [hown])]
  simp only [h8]

/-- A data-URL upload declaring an arbitrary, non-image content type. -/
def exThumbEnvCWeird : ThumbEnvC :=
  { exThumbEnvC with formFile := Except.ok ⟨"application/x-totally-bogus; charset=banana"⟩ }

/-- Witness for C10: the bogus declared type is accepted and lands verbatim
in the stored data URL. -/
theorem thumbnailC_accepts_any_content_type_witness :
    handlerUploadThumbnailC exCfg exThumbEnvCWeird =
      { status := 200,
        payload := some { exOwnerVideo with thumbnailURL := some (dataURLFor "application/x-totally-bogus; charset=banana" [1, 2, 3]) },
        errorMsg := none, fsEvents := [],
        dbWrites := [{ exOwnerVideo with thumbnailURL := some (dataURLFor "application/x-totally-bogus; charset=banana" [1, 2, 3]) }] } :=
  thumbnailC_accepts_any_content_type exCfg exThumbEnvCWeird 7 42 "token"
    ⟨"application/x-totally-bogus; charset=banana"⟩ [1, 2, 3] exOwnerVideo
    rfl rfl rfl rfl rfl rfl rfl (by decide) rfl

end Tubely
